import Mathlib

/-!
Verification of the storage/dispatch engine of kmillet::sized_any
(src/include/kmillet/sized_any/sized_any.hpp, the canonical header).

The engine pairs a per-type descriptor singleton (TypeInfo<T>) with an N-byte
buffer; the descriptor decides, per capacity, whether the value lives inline
in the buffer or behind a heap pointer, and drives copy/move/clean-up.

The embedding below models:
  * a descriptor as its observable data: a tag standing for the address of the
    unique TypeInfo<T> singleton (0 stands for TypeInfo<void>), sizeof(T), and
    is_nothrow_move_constructible_v<T>;
  * the buffer by its active interpretation: an inline value, a pointer to a
    heap cell, or moved-from/uninitialized bytes;
  * the heap as a list of live (address, value) cells plus a fresh-address
    counter;
  * each descriptor operation as a pure function that also returns the list of
    primitive effects (constructor calls, destructor calls, allocation,
    deallocation) it performs, so that no-allocation / no-destruction claims
    are statements about the returned effect list.

A second, byte-level model near the end embeds the same-capacity swap for
trivially copyable inline types, where the sizes of the two contained types
are observable; it is used for the swap exchange/involution claim.
-/

namespace SA

/-- A heap address (the value of a pointer). -/
abbrev Addr := Nat

/-- The observable data of a TypeInfo<T> descriptor singleton: `tag` stands for
the singleton's address / typeid identity (0 is reserved for TypeInfo<void>),
`size` is sizeof(T) (TypeInfo<T>::Size, lines 591-595; the void specialisation
returns 0, lines 555-559), `nothrowMove` is is_nothrow_move_constructible_v<T>. -/
structure CType where
  tag : Nat
  size : Nat
  nothrowMove : Bool
  deriving DecidableEq

/-- The descriptor of the empty state: TypeInfo<void> (tag 0, Size() = 0). -/
def voidInfo : CType := ⟨0, 0, true⟩

/-- TypeInfo<T>::NeedsAlloc (lines 596-600): sizeof(T) > cap or T not
nothrow-move-constructible; the TypeInfo<void> specialisation (lines 560-564)
returns false. The tag-0 branch models which specialisation the virtual
dispatch lands in. -/
def CType.NeedsAlloc (t : CType) (cap : Nat) : Bool :=
  if t.tag = 0 then false
  else decide (t.size > cap) || !t.nothrowMove

/-- Primitive effects of the descriptor operations, tagged with the contained
type's descriptor tag. -/
inductive Op where
  | allocate (tag : Nat)
  | moveCtor (tag : Nat)
  | copyCtor (tag : Nat)
  | dtor (tag : Nat)
  | dealloc (tag : Nat)
  deriving DecidableEq

/-- The N-byte storage buffer, abstracted to its active interpretation:
a T value held in place, a pointer to a heap cell, or moved-from /
uninitialized bytes. -/
inductive Buff where
  | undef
  | inl (v : Nat)
  | ptr (p : Addr)
  deriving DecidableEq

/-- The heap: the live allocations and the next fresh address. -/
structure Mem where
  heap : List (Addr × Nat)
  next : Addr
  deriving DecidableEq

def Mem.lookup (m : Mem) (p : Addr) : Option Nat :=
  (m.heap.find? fun c => c.1 == p).map fun c => c.2

def Mem.free (m : Mem) (p : Addr) : Mem :=
  ⟨m.heap.filter fun c => !(c.1 == p), m.next⟩

def Mem.alloc (m : Mem) (v : Nat) : Addr × Mem :=
  (m.next, ⟨(m.next, v) :: m.heap, m.next + 1⟩)

/-- Result of a descriptor move: the destination buffer, what the source
buffer holds afterwards, the heap, and the effects performed. -/
structure MoveRes where
  dst : Buff
  src : Buff
  mem : Mem
  ops : List Op
  deriving DecidableEq

/-- TypeInfo<T>::Move (lines 618-638), with fromCap/toCap the two capacities:
  * both sides need allocation: the heap pointer is transferred verbatim,
    nothing is constructed, destroyed or allocated (lines 623-627);
  * only the destination needs allocation: a new heap cell is allocated and
    move-constructed from the inline source, which is then destroyed
    (line 628 falling through to line 637);
  * only the source needs allocation: the value is move-constructed inline
    at the destination and the source heap cell is deleted (lines 630-635);
  * neither: inline move-construction, then the source is destroyed
    (lines 636-637).
The tag-0 branch is the TypeInfo<void>::Move specialisation (lines 570-574),
a no-op. `dstPrev` is the previous content of the destination buffer, kept
wherever the operation writes nothing. Arms whose source buffer does not hold
the representation the capacities call for are unreachable under the layout
invariant and return the buffers unchanged. -/
def TypeInfo.Move (t : CType) (src dstPrev : Buff) (fromCap toCap : Nat) (m : Mem) : MoveRes :=
  if t.tag = 0 then ⟨dstPrev, src, m, []⟩
  else if t.NeedsAlloc toCap then
    if t.NeedsAlloc fromCap then ⟨src, src, m, []⟩
    else
      match src with
      | .inl v =>
        let r := m.alloc v
        ⟨.ptr r.1, .undef, r.2, [.allocate t.tag, .moveCtor t.tag, .dtor t.tag]⟩
      | s => ⟨dstPrev, s, m, []⟩
  else if t.NeedsAlloc fromCap then
    match src with
    | .ptr p =>
      match m.lookup p with
      | some v => ⟨.inl v, .ptr p, m.free p, [.moveCtor t.tag, .dtor t.tag, .dealloc t.tag]⟩
      | none => ⟨dstPrev, .ptr p, m, []⟩
    | s => ⟨dstPrev, s, m, []⟩
  else
    match src with
    | .inl v => ⟨.inl v, .undef, m, [.moveCtor t.tag, .dtor t.tag]⟩
    | s => ⟨dstPrev, s, m, []⟩

/-- Result of a descriptor copy. -/
structure CopyRes where
  dst : Buff
  mem : Mem
  ops : List Op
  deriving DecidableEq

/-- Reading the source representation of a T at a given capacity:
**from when NeedsAlloc(fromCap), else *from. -/
def readSrc (t : CType) (src : Buff) (fromCap : Nat) (m : Mem) : Option Nat :=
  if t.NeedsAlloc fromCap then
    match src with
    | .ptr p => m.lookup p
    | _ => none
  else
    match src with
    | .inl v => some v
    | _ => none

/-- TypeInfo<T>::Copy (lines 601-617): copy-construct into a new heap cell when
the destination needs allocation, else in place; the source is read through its
own representation and left untouched. Tag 0 is TypeInfo<void>::Copy, a no-op. -/
def TypeInfo.Copy (t : CType) (src dstPrev : Buff) (fromCap toCap : Nat) (m : Mem) : CopyRes :=
  if t.tag = 0 then ⟨dstPrev, m, []⟩
  else
    match readSrc t src fromCap m with
    | none => ⟨dstPrev, m, []⟩
    | some v =>
      if t.NeedsAlloc toCap then
        let r := m.alloc v
        ⟨.ptr r.1, r.2, [.allocate t.tag, .copyCtor t.tag]⟩
      else ⟨.inl v, m, [.copyCtor t.tag]⟩

/-- Result of a clean-up. -/
structure CleanRes where
  mem : Mem
  ops : List Op
  deriving DecidableEq

/-- TypeInfo<T>::CleanUp (lines 644-652): delete the heap cell when
NeedsAlloc(cap), else destruct the inline value in place;
TypeInfo<void>::CleanUp (lines 580-584) is a no-op. -/
def TypeInfo.CleanUp (t : CType) (b : Buff) (cap : Nat) (m : Mem) : CleanRes :=
  if t.tag = 0 then ⟨m, []⟩
  else if t.NeedsAlloc cap then
    match b with
    | .ptr p => ⟨m.free p, [.dtor t.tag, .dealloc t.tag]⟩
    | _ => ⟨m, []⟩
  else ⟨m, [.dtor t.tag]⟩

/-- The container (class sized_any<N>, lines 124-334): the active descriptor
pointer and the buffer. The capacity N is a parameter of the operations. -/
structure SizedAny where
  info : CType
  buff : Buff
  deriving DecidableEq

/-- The default constructor (lines 654-657): descriptor set to TypeInfo<void>,
buffer uninitialized. -/
def SizedAny.empty : SizedAny := ⟨voidInfo, .undef⟩

/-- has_value (lines 861-865): info != &info<void>, descriptor identity being
the singleton's tag. -/
def SizedAny.has_value (a : SizedAny) : Bool := !(a.info.tag == 0)

/-- Result of a constructor: the new object and the heap. -/
structure CtorRes where
  obj : SizedAny
  mem : Mem
  deriving DecidableEq

/-- The ValueType constructor (lines 686-697): selects decay_t<ValueType>'s
descriptor, then heap-allocates the value when NeedsAlloc(N), else constructs
it in the buffer. -/
def SizedAny.ctorValue (t : CType) (v : Nat) (N : Nat) (m : Mem) : CtorRes :=
  if t.NeedsAlloc N then
    let r := m.alloc v
    ⟨⟨t, .ptr r.1⟩, r.2⟩
  else ⟨⟨t, .inl v⟩, m⟩

/-- Result of a move construction: the new object, the moved-from source
container, the heap and the effects. -/
structure CtorMoveRes where
  obj : SizedAny
  srcAfter : SizedAny
  mem : Mem
  ops : List Op
  deriving DecidableEq

/-- Move construction of sized_any<N> from sized_any<M>&& (lines 678-685, and
lines 671-677 for M = N): info := other.info; info->move(other.buff, buff, M, N);
then other.info := &info<void>. -/
def SizedAny.moveCtor (other : SizedAny) (M N : Nat) (m : Mem) : CtorMoveRes :=
  let r := TypeInfo.Move other.info other.buff .undef M N m
  ⟨⟨other.info, r.dst⟩, ⟨voidInfo, r.src⟩, r.mem, r.ops⟩

/-- Result of an operation that replaces one container's state. -/
structure StateRes where
  obj : SizedAny
  mem : Mem
  ops : List Op
  deriving DecidableEq

/-- Copy construction from sized_any<M> (lines 664-670, and 658-663 for M = N):
info := other.info; info->copy(other.buff, buff, M, N). -/
def SizedAny.copyCtor (other : SizedAny) (M N : Nat) (m : Mem) : StateRes :=
  let r := TypeInfo.Copy other.info other.buff .undef M N m
  ⟨⟨other.info, r.dst⟩, r.mem, r.ops⟩

/-- reset (lines 823-829): return immediately when the active descriptor is the
void descriptor; otherwise clean up and point the descriptor at void. -/
def SizedAny.reset (N : Nat) (a : SizedAny) (m : Mem) : StateRes :=
  if a.info.tag = 0 then ⟨a, m, []⟩
  else
    let r := TypeInfo.CleanUp a.info a.buff N m
    ⟨⟨voidInfo, a.buff⟩, r.mem, r.ops⟩

/-- The destructor (lines 723-727) destroys the contained object, if any, as if
by a call to reset(). -/
def SizedAny.dtorRun (N : Nat) (a : SizedAny) (m : Mem) : StateRes :=
  SizedAny.reset N a m

/-- Result of a same-capacity swap: the two containers, the heap and the effects. -/
structure SwapRes where
  a : SizedAny
  b : SizedAny
  mem : Mem
  ops : List Op
  deriving DecidableEq

/-- The body of the same-capacity swap (lines 834-838), for distinct operands:
other.info->move(other.buff, tmp); info->move(buff, other.buff);
info->move(tmp, buff) — the third relocation is dispatched through info, the
left operand's pre-swap descriptor, exactly as line 837 spells it — and then
the descriptor pointers are exchanged (line 838; exchanging equal pointers
coincides with the conditional exchange). The stack temporary starts
uninitialized. -/
def SizedAny.swapBody (N : Nat) (a other : SizedAny) (m : Mem) : SwapRes :=
  let r1 := TypeInfo.Move other.info other.buff .undef N N m
  let r2 := TypeInfo.Move a.info a.buff r1.src N N r1.mem
  let r3 := TypeInfo.Move a.info r1.dst r2.src N N r2.mem
  ⟨⟨other.info, r3.dst⟩, ⟨a.info, r2.dst⟩, r3.mem, r1.ops ++ r2.ops ++ r3.ops⟩

/-- Result of an operation on an object store (objects addressed by the heap
addresses their this pointers hold). -/
structure AssignRes where
  st : Addr → SizedAny
  mem : Mem
  ops : List Op

/-- swap (lines 830-839) on an object store: if (&other == this) return;
(line 833), else run the swap body on the two objects. -/
def SizedAny.swapMem (N : Nat) (σ : Addr → SizedAny) (thisA otherA : Addr) (m : Mem) :
    AssignRes :=
  if otherA = thisA then ⟨σ, m, []⟩
  else
    let r := SizedAny.swapBody N (σ thisA) (σ otherA) m
    ⟨fun x => if x = thisA then r.a else if x = otherA then r.b else σ x, r.mem, r.ops⟩

/-- Copy assignment (lines 729-735): if (&rhs == this) return *this; else
sized_any<N>(rhs).swap(*this), the temporary being destroyed afterwards. -/
def SizedAny.copyAssignMem (N : Nat) (σ : Addr → SizedAny) (thisA rhsA : Addr) (m : Mem) :
    AssignRes :=
  if rhsA = thisA then ⟨σ, m, []⟩
  else
    let c := SizedAny.copyCtor (σ rhsA) N N m
    let s := SizedAny.swapBody N c.obj (σ thisA) c.mem
    let d := SizedAny.dtorRun N s.a s.mem
    ⟨fun x => if x = thisA then s.b else σ x, d.mem, c.ops ++ s.ops ++ d.ops⟩

/-- Move assignment from sized_any<N>&& (lines 743-749): if (&rhs == this)
return *this; else sized_any<N>(std::move(rhs)).swap(*this), the temporary
being destroyed afterwards. -/
def SizedAny.moveAssignMem (N : Nat) (σ : Addr → SizedAny) (thisA rhsA : Addr) (m : Mem) :
    AssignRes :=
  if rhsA = thisA then ⟨σ, m, []⟩
  else
    let c := SizedAny.moveCtor (σ rhsA) N N m
    let s := SizedAny.swapBody N c.obj (σ thisA) c.mem
    let d := SizedAny.dtorRun N s.a s.mem
    ⟨fun x => if x = thisA then s.b else if x = rhsA then c.srcAfter else σ x,
      d.mem, c.ops ++ s.ops ++ d.ops⟩

/-- Result of the cross-capacity move assignment on its two operands. -/
structure CrossAssignRes where
  dst : SizedAny
  rhsAfter : SizedAny
  mem : Mem
  ops : List Op
  deriving DecidableEq

/-- Cross-capacity move assignment (lines 750-756): sized_any<N>(std::move(rhs))
.swap(*this), the temporary being destroyed afterwards (no identity check: the
operands have different static types, so they cannot alias). -/
def SizedAny.moveAssignCross (M N : Nat) (dstC rhsC : SizedAny) (m : Mem) : CrossAssignRes :=
  let c := SizedAny.moveCtor rhsC M N m
  let s := SizedAny.swapBody N c.obj dstC c.mem
  let d := SizedAny.dtorRun N s.a s.mem
  ⟨s.b, c.srcAfter, d.mem, c.ops ++ s.ops ++ d.ops⟩

/-- What the pointer-returning any_cast yields: the stored heap pointer
(NeedsAlloc case, line 906) or the address of the container's own buffer
(line 908). -/
inductive ValPtr where
  | heapPtr (p : Addr)
  | bufPtr
  deriving DecidableEq

/-- any_cast<T>(sized_any<N>*) (lines 900-909): total and noexcept. A null
operand, or an active descriptor whose identity differs from T's, yields a
null pointer; otherwise a pointer into the representation is returned
unconditionally (under the layout invariant the heap case always finds the
stored pointer; the fallback arm stands for reading garbage pointer bytes and
is unreachable under that invariant). -/
def anyCastPtr (t : CType) (N : Nat) : Option SizedAny → Option ValPtr
  | none => none
  | some a =>
    if a.info.tag ≠ t.tag then none
    else if t.NeedsAlloc N then
      match a.buff with
      | .ptr p => some (.heapPtr p)
      | _ => some (.heapPtr 0)
    else some .bufPtr

/-- Dereferencing a pointer produced by anyCastPtr against the container and
the heap. -/
def readThrough (m : Mem) (a : SizedAny) : ValPtr → Option Nat
  | .heapPtr p => m.lookup p
  | .bufPtr =>
    match a.buff with
    | .inl v => some v
    | _ => none

/-- The contained value of a container under its active descriptor's
interpretation of the buffer. -/
def containedValue (N : Nat) (m : Mem) (a : SizedAny) : Option Nat :=
  if a.info.NeedsAlloc N then
    match a.buff with
    | .ptr p => m.lookup p
    | _ => none
  else
    match a.buff with
    | .inl v => some v
    | _ => none

/-- The reference-returning any_cast<T>(sized_any<N>&) (lines 878-883): goes
through the pointer form and dereferences; none models the bad_any_cast throw. -/
def anyCastVal (t : CType) (N : Nat) (a : SizedAny) (m : Mem) : Option Nat :=
  match anyCastPtr t N (some a) with
  | some q => readThrough m a q
  | none => none

/-- The buffer-layout invariant: a nonempty container's buffer holds a live
inline value when its descriptor reports ¬NeedsAlloc(N), and otherwise a
pointer to a live heap cell. -/
def WFb (N : Nat) (m : Mem) (a : SizedAny) : Bool :=
  if a.info.tag = 0 then true
  else if a.info.NeedsAlloc N then
    match a.buff with
    | .ptr p => (m.lookup p).isSome
    | _ => false
  else
    match a.buff with
    | .inl _ => true
    | _ => false

/-- The primitive storage steps emplace performs on the previous and the new
representation. -/
inductive EmplaceStep where
  | destructReuseHeap (tag : Nat)
  | constructInBlock (tag : Nat)
  | fullRelease (tag : Nat)
  | allocConstruct (tag : Nat)
  | constructInline (tag : Nat)
  deriving DecidableEq

/-- emplace<ValueType> (lines 766-793), reduced to the sequence of storage
steps it takes, with cur the active descriptor and tnew the descriptor of
decay_t<ValueType>:
  * tnew needs allocation at N and the current type does too with equal Size
    (line 773): destructReuseHeap on the old value, then placement-new of the
    new value into the retained heap block (lines 775-776);
  * tnew needs allocation but the condition fails: cleanUp (full release) of
    the old representation, then a fresh heap allocation (lines 780-781);
  * tnew fits inline: cleanUp of the old representation, then placement-new
    into the buffer (lines 788-789). -/
def SizedAny.emplaceSteps (cur tnew : CType) (N : Nat) : List EmplaceStep :=
  if tnew.NeedsAlloc N then
    if cur.NeedsAlloc N && (cur.size == tnew.size) then
      [.destructReuseHeap cur.tag, .constructInBlock tnew.tag]
    else
      [.fullRelease cur.tag, .allocConstruct tnew.tag]
  else
    [.fullRelease cur.tag, .constructInline tnew.tag]

/-- The declared noexcept of move-constructing a sized_any<N> from a
sized_any<M>&&: overload resolution picks the non-template move constructor
(line 157, unconditionally noexcept, body lines 671-677) when M = N, and the
converting template (line 168, declared noexcept(M < N), body lines 678-685)
when M ≠ N. -/
def moveCtorNoexcept (M N : Nat) : Bool :=
  if M = N then true else decide (M < N)

/-- sizeof(void*): the static_assert at line 128 demands N ≥ pointer size. -/
def ptrSize : Nat := 8

/-! ## Byte-level model of the same-capacity swap

For the swap exchange/involution claim the sizes of the two contained types
must be observable, so the buffer is modelled as its list of bytes. The model
covers trivially copyable, nothrow-move-constructible types held inline at the
swap capacity (NeedsAlloc(N) = false): for such a type, placement-new move
construction copies the sizeof(T)-byte object representation and the
destructor does not change the bytes. -/

/-- Byte-level descriptor of a trivially copyable, nothrow-move-constructible
type held inline at the swap capacity; tag 0 again stands for TypeInfo<void>. -/
structure BType where
  tag : Nat
  size : Nat
  deriving DecidableEq

/-- TypeInfo<T>::Move (lines 618-638) in its inline-to-inline branch
(¬NeedsAlloc on both sides, lines 636-637), for a trivially copyable T:
new (to) T(std::move(*from)) copies the sizeof(T)-byte representation onto the
head of the destination buffer and leaves the destination's remaining bytes
untouched; the trivial destructor of the source changes nothing. Tag 0 is the
TypeInfo<void>::Move no-op. -/
def BType.Move (t : BType) (src dstPrev : List Nat) : List Nat :=
  if t.tag = 0 then dstPrev else src.take t.size ++ dstPrev.drop t.size

/-- A container in the byte-level model. -/
structure BAny where
  info : BType
  buff : List Nat
  deriving DecidableEq

/-- The same-capacity swap (lines 830-839) at the byte level, for distinct
operands: other.info->move(other.buff, tmp); info->move(buff, other.buff);
info->move(tmp, buff) — the third relocation dispatched through info, the left
operand's pre-swap descriptor, exactly as line 837 spells it — then the
descriptor pointers are exchanged. The stack temporary's bytes start as an
arbitrary fixed value (zeros). -/
def BAny.swap (N : Nat) (a other : BAny) : BAny × BAny :=
  let tmp := other.info.Move other.buff (List.replicate N 0)
  let otherBuf := a.info.Move a.buff other.buff
  let aBuf := a.info.Move tmp a.buff
  (⟨other.info, aBuf⟩, ⟨a.info, otherBuf⟩)

/-- A 4-byte trivially copyable type (for instance int). -/
def bT4 : BType := ⟨1, 4⟩

/-- An 8-byte trivially copyable type (for instance double). -/
def bT8 : BType := ⟨2, 8⟩

/-- A sized_any<32> holding a bT4 value whose object representation is the
bytes 9,9,9,9 (the rest of the buffer is unused padding). -/
def bA0 : BAny := ⟨bT4, [9, 9, 9, 9] ++ List.replicate 28 0⟩

/-- A sized_any<32> holding a bT8 value whose object representation is the
bytes 1,2,3,4,5,6,7,8. -/
def bB0 : BAny := ⟨bT8, [1, 2, 3, 4, 5, 6, 7, 8] ++ List.replicate 24 0⟩

/-- NeedsAlloc is antitone in the capacity: if a type needs allocation at the
larger capacity it already needs it at the smaller one. -/
theorem needsAlloc_mono (t : CType) {M N : Nat} (h : M ≤ N) (hN : t.NeedsAlloc N = true) :
    t.NeedsAlloc M = true := by
  unfold CType.NeedsAlloc at hN ⊢
  by_cases ht : t.tag = 0
  · simp [ht] at hN
  · simp only [if_neg ht, Bool.or_eq_true, decide_eq_true_eq, Bool.not_eq_true'] at hN ⊢
    rcases hN with hs | hm
    · exact Or.inl (lt_of_le_of_lt h hs)
    · exact Or.inr hm

/-- Claim C1: move construction of a sized_any<N> from a sized_any<M>&& is
declared noexcept exactly when M ≤ N; when M ≤ N the dispatched descriptor
move can never allocate, and when M > N there is a contained type that does
not fit inline at N for which the move newly heap-allocates (so it can fail). -/
theorem spec_C1 (M N : Nat) (t : CType) (src dstPrev : Buff) (m : Mem) (v : Nat) :
    (moveCtorNoexcept M N = true ↔ M ≤ N)
    ∧ (M ≤ N → Op.allocate t.tag ∉ (TypeInfo.Move t src dstPrev M N m).ops)
    ∧ (N < M →
        (⟨1, M, true⟩ : CType).size > N
        ∧ Op.allocate 1 ∈ (TypeInfo.Move ⟨1, M, true⟩ (.inl v) .undef M N m).ops) := by
  refine ⟨?_, ?_, ?_⟩
  · unfold moveCtorNoexcept
    by_cases h : M = N
    · simp [h]
    · simp only [if_neg h, decide_eq_true_eq]
      omega
  · intro hMN
    unfold TypeInfo.Move
    by_cases ht : t.tag = 0
    · simp [ht]
    · simp only [if_neg ht]
      by_cases hN : t.NeedsAlloc N = true
      · have hM : t.NeedsAlloc M = true := needsAlloc_mono t hMN hN
        simp [hN, hM]
      · simp only [hN, Bool.false_eq_true, if_false]
        by_cases hM : t.NeedsAlloc M = true
        · simp only [hM, if_true]
          cases src with
          | ptr p => cases hl : m.lookup p <;> simp [hl]
          | inl v => simp
          | undef => simp
        · simp only [hM, Bool.false_eq_true, if_false]
          cases src <;> simp
  · intro h
    have hN : (⟨1, M, true⟩ : CType).NeedsAlloc N = true := by
      simp [CType.NeedsAlloc, h]
    have hM : (⟨1, M, true⟩ : CType).NeedsAlloc M = false := by
      simp [CType.NeedsAlloc]
    refine ⟨h, ?_⟩
    unfold TypeInfo.Move
    simp [hN, hM]

/-- Claim C2 (failing input): the same-capacity swap at the concrete input —
a sized_any<32> holding a 4-byte trivially copyable value (bytes 9,9,9,9)
swapped with one holding an 8-byte value (bytes 1..8). The third relocation
(line 837) is dispatched through the left operand's pre-swap descriptor and so
copies only 4 of the temporary's 8 live bytes: after one swap, a claims the
8-byte type but holds corrupted bytes, and after a second swap b's descriptor
has come back but its bytes have not, refuting both the content exchange and
the involution the claim states. -/
theorem spec_C2_swap_corrupts :
    ((BAny.swap 32 bA0 bB0).1.info = bT8
      ∧ (BAny.swap 32 bA0 bB0).1.buff.take 8 ≠ bB0.buff.take 8)
    ∧ ((BAny.swap 32 (BAny.swap 32 bA0 bB0).1 (BAny.swap 32 bA0 bB0).2).2.info = bT8
      ∧ (BAny.swap 32 (BAny.swap 32 bA0 bB0).1 (BAny.swap 32 bA0 bB0).2).2.buff.take 8
          ≠ bB0.buff.take 8)
    ∧ (BAny.swap 32 (BAny.swap 32 bA0 bB0).1 (BAny.swap 32 bA0 bB0).2).1
        = ⟨bT4, [9, 9, 9, 9] ++ List.replicate 28 0⟩ := by
  decide

/-- Claim C3: emplace reuses the existing heap block iff the currently
contained type and the new type both require allocation at the destination
capacity N and report equal Size; in every other case it fully releases the
old representation first and then constructs the new value in fresh storage
(a fresh heap allocation, or the inline buffer). -/
theorem spec_C3 (cur tnew : CType) (N : Nat) :
    (SizedAny.emplaceSteps cur tnew N
        = [.destructReuseHeap cur.tag, .constructInBlock tnew.tag]
      ↔ (cur.NeedsAlloc N = true ∧ tnew.NeedsAlloc N = true ∧ cur.size = tnew.size))
    ∧ (¬(cur.NeedsAlloc N = true ∧ tnew.NeedsAlloc N = true ∧ cur.size = tnew.size) →
        SizedAny.emplaceSteps cur tnew N
          = [.fullRelease cur.tag,
             if tnew.NeedsAlloc N then .allocConstruct tnew.tag
             else .constructInline tnew.tag]) := by
  unfold SizedAny.emplaceSteps
  by_cases h1 : tnew.NeedsAlloc N = true
  · simp only [h1, if_true]
    by_cases h2 : cur.NeedsAlloc N = true
    · by_cases h3 : cur.size = tnew.size
      · simp [h2, h3]
      · simp [h2, h3]
    · simp [h2]
  · simp only [h1, Bool.false_eq_true, if_false]
    simp [h1]

/-- Claim C4: for every supported (non-void) value type and every capacity
N ≥ pointer size, constructing a container from a value and extracting as the
same type returns that value, and extracting as any other type fails. -/
theorem spec_C4 (t u : CType) (v : Nat) (N : Nat) (m : Mem)
    (ht : t.tag ≠ 0) (hN : ptrSize ≤ N) (hu : u.tag ≠ t.tag) :
    anyCastVal t N (SizedAny.ctorValue t v N m).obj (SizedAny.ctorValue t v N m).mem = some v
    ∧ anyCastVal u N (SizedAny.ctorValue t v N m).obj
        (SizedAny.ctorValue t v N m).mem = none := by
  have hut : ¬((SizedAny.ctorValue t v N m).obj.info.tag = u.tag) := by
    unfold SizedAny.ctorValue
    by_cases h : t.NeedsAlloc N = true <;> simp [h] <;> exact fun hh => hu hh.symm
  constructor
  · unfold SizedAny.ctorValue anyCastVal anyCastPtr
    by_cases h : t.NeedsAlloc N = true
    · simp [h, readThrough, Mem.lookup, Mem.alloc]
    · simp [h, readThrough]
  · unfold anyCastVal anyCastPtr
    simp [hut]

/-- Claim C5: after move construction or move assignment from a container, the
source container is empty — its descriptor is reset to the void descriptor and
has_value() is false — for every contained type and every pair of capacities. -/
theorem spec_C5 (other : SizedAny) (M N N2 : Nat) (m m2 m3 : Mem)
    (σ : Addr → SizedAny) (thisA rhsA : Addr) (h : rhsA ≠ thisA)
    (dstC rhsC : SizedAny) :
    (SizedAny.moveCtor other M N m).srcAfter.info = voidInfo
    ∧ (SizedAny.moveCtor other M N m).srcAfter.has_value = false
    ∧ ((SizedAny.moveAssignMem N2 σ thisA rhsA m2).st rhsA).has_value = false
    ∧ (SizedAny.moveAssignCross M N dstC rhsC m3).rhsAfter.has_value = false := by
  refine ⟨rfl, rfl, ?_, rfl⟩
  unfold SizedAny.moveAssignMem
  rw [if_neg h]
  simp [h]
  rfl

/-- Claim C6: the pointer-returning any_cast overloads are total and never
throw: a null container pointer yields a null pointer without any dereference;
a non-null one yields null exactly when the requested type's descriptor
identity differs from the active descriptor, and otherwise a valid pointer
through which the contained value is read. -/
theorem spec_C6 (t : CType) (N : Nat) (a : SizedAny) (m : Mem)
    (ht : t.tag ≠ 0) (hmatch : a.info = t) (hwf : WFb N m a = true) :
    anyCastPtr t N none = none
    ∧ (∀ b : SizedAny, anyCastPtr t N (some b) = none ↔ b.info.tag ≠ t.tag)
    ∧ (∃ q, anyCastPtr t N (some a) = some q
        ∧ readThrough m a q = containedValue N m a
        ∧ containedValue N m a ≠ none) := by
  refine ⟨rfl, ?_, ?_⟩
  · intro b
    unfold anyCastPtr
    by_cases hb : b.info.tag = t.tag
    · simp only [hb, ne_eq, not_true_eq_false, if_false, iff_false]
      by_cases hA : t.NeedsAlloc N = true
      · simp only [hA, if_true]
        cases b.buff <;> simp
      · simp [hA]
    · simp [hb]
  · subst hmatch
    unfold WFb at hwf
    rw [if_neg ht] at hwf
    by_cases hA : a.info.NeedsAlloc N = true
    · rw [if_pos hA] at hwf
      cases hab : a.buff with
      | ptr p =>
        rw [hab] at hwf
        simp only at hwf
        obtain ⟨v, hv⟩ := Option.isSome_iff_exists.mp hwf
        refine ⟨.heapPtr p, ?_, ?_, ?_⟩
        · simp [anyCastPtr, hA, hab]
        · simp [readThrough, containedValue, hA, hab]
        · simp [containedValue, hA, hab, hv]
      | undef => rw [hab] at hwf; simp at hwf
      | inl v => rw [hab] at hwf; simp at hwf
    · rw [if_neg hA] at hwf
      cases hab : a.buff with
      | inl v =>
        refine ⟨.bufPtr, ?_, ?_, ?_⟩
        · simp [anyCastPtr, hA]
        · simp [readThrough, containedValue, hA, hab]
        · simp [containedValue, hA, hab]
      | undef => rw [hab] at hwf; simp at hwf
      | ptr p => rw [hab] at hwf; simp at hwf

/-- Claim C7: self-assignment and self-swap are no-ops detected by address
identity: the object store, the heap and the contained value are unchanged,
and no destructor, deallocation or construction runs. -/
theorem spec_C7 (N : Nat) (σ : Addr → SizedAny) (x : Addr) (m : Mem) :
    SizedAny.copyAssignMem N σ x x m = ⟨σ, m, []⟩
    ∧ SizedAny.moveAssignMem N σ x x m = ⟨σ, m, []⟩
    ∧ SizedAny.swapMem N σ x x m = ⟨σ, m, []⟩
    ∧ (SizedAny.copyAssignMem N σ x x m).st x = σ x := by
  unfold SizedAny.copyAssignMem SizedAny.moveAssignMem SizedAny.swapMem
  simp

/-- Claim C8: for every contained (non-void) type and every capacity,
NeedsAlloc(capacity) is true iff sizeof(T) exceeds the capacity or T is not
nothrow-move-constructible. -/
theorem spec_C8 (t : CType) (cap : Nat) (ht : t.tag ≠ 0) :
    t.NeedsAlloc cap = true ↔ (t.size > cap ∨ t.nothrowMove = false) := by
  unfold CType.NeedsAlloc
  simp [ht]

/-- Claim C9: when the contained type needs allocation at both the source and
the destination capacity, the move transfers the heap pointer verbatim — no
move construction, no allocation, no heap change — and the pointer any_cast
yields on the destination after the move equals the one the source yielded
before the move. -/
theorem spec_C9 (t : CType) (M N : Nat) (p : Addr) (m : Mem)
    (hM : t.NeedsAlloc M = true) (hN : t.NeedsAlloc N = true) :
    (SizedAny.moveCtor ⟨t, .ptr p⟩ M N m).obj = ⟨t, .ptr p⟩
    ∧ (SizedAny.moveCtor ⟨t, .ptr p⟩ M N m).ops = []
    ∧ (SizedAny.moveCtor ⟨t, .ptr p⟩ M N m).mem = m
    ∧ anyCastPtr t N (some (SizedAny.moveCtor ⟨t, .ptr p⟩ M N m).obj)
        = anyCastPtr t M (some ⟨t, .ptr p⟩)
    ∧ anyCastPtr t N (some (SizedAny.moveCtor ⟨t, .ptr p⟩ M N m).obj)
        = some (.heapPtr p) := by
  have ht : ¬t.tag = 0 := by
    intro h0
    rw [CType.NeedsAlloc, if_pos h0] at hM
    exact Bool.false_ne_true hM
  unfold SizedAny.moveCtor TypeInfo.Move anyCastPtr
  simp [ht, hM, hN]

/-- Claim C10: reset() and the destructor on an empty container are complete
no-ops — no destructor call, no deallocation, state and heap untouched — and
every void-descriptor storage operation is a no-op, so the uninitialized
buffer of a default-constructed container is never interpreted (the buffer
content b is arbitrary, including moved-from or uninitialized). -/
theorem spec_C10 (b src dstPrev : Buff) (N M cap : Nat) (m : Mem) :
    SizedAny.reset N ⟨voidInfo, b⟩ m = ⟨⟨voidInfo, b⟩, m, []⟩
    ∧ SizedAny.dtorRun N ⟨voidInfo, b⟩ m = ⟨⟨voidInfo, b⟩, m, []⟩
    ∧ TypeInfo.CleanUp voidInfo b cap m = ⟨m, []⟩
    ∧ TypeInfo.Move voidInfo src dstPrev M N m = ⟨dstPrev, src, m, []⟩
    ∧ TypeInfo.Copy voidInfo src dstPrev M N m = ⟨dstPrev, m, []⟩ :=
  ⟨rfl, rfl, rfl, rfl, rfl⟩

/-- Witness for C4 at a concrete input: an inline 4-byte type with value 42 in
a capacity-8 container round-trips, and extracting as a different type fails. -/
theorem spec_C4_witness :
    anyCastVal ⟨1, 4, true⟩ 8 (SizedAny.ctorValue ⟨1, 4, true⟩ 42 8 ⟨[], 0⟩).obj
        (SizedAny.ctorValue ⟨1, 4, true⟩ 42 8 ⟨[], 0⟩).mem = some 42
    ∧ anyCastVal ⟨2, 8, true⟩ 8 (SizedAny.ctorValue ⟨1, 4, true⟩ 42 8 ⟨[], 0⟩).obj
        (SizedAny.ctorValue ⟨1, 4, true⟩ 42 8 ⟨[], 0⟩).mem = none :=
  spec_C4 ⟨1, 4, true⟩ ⟨2, 8, true⟩ 42 8 ⟨[], 0⟩ (by decide) (by decide) (by decide)

/-- Witness for C5 at a concrete input. -/
theorem spec_C5_witness :
    (SizedAny.moveCtor ⟨⟨5, 4, true⟩, .inl 7⟩ 8 8 ⟨[], 0⟩).srcAfter.info = voidInfo
    ∧ (SizedAny.moveCtor ⟨⟨5, 4, true⟩, .inl 7⟩ 8 8 ⟨[], 0⟩).srcAfter.has_value = false
    ∧ ((SizedAny.moveAssignMem 8
          (fun x => if x = 1 then ⟨⟨5, 4, true⟩, .inl 7⟩ else SizedAny.empty)
          0 1 ⟨[], 0⟩).st 1).has_value = false
    ∧ (SizedAny.moveAssignCross 8 8 SizedAny.empty
        ⟨⟨5, 4, true⟩, .inl 7⟩ ⟨[], 0⟩).rhsAfter.has_value = false :=
  spec_C5 ⟨⟨5, 4, true⟩, .inl 7⟩ 8 8 8 ⟨[], 0⟩ ⟨[], 0⟩ ⟨[], 0⟩
    (fun x => if x = 1 then ⟨⟨5, 4, true⟩, .inl 7⟩ else SizedAny.empty)
    0 1 (by decide) SizedAny.empty ⟨⟨5, 4, true⟩, .inl 7⟩

/-- Witness for C6 at a concrete input: a capacity-8 container holding an
inline 4-byte value. -/
theorem spec_C6_witness :
    anyCastPtr ⟨1, 4, true⟩ 8 none = none
    ∧ (∀ b : SizedAny,
        anyCastPtr ⟨1, 4, true⟩ 8 (some b) = none ↔ b.info.tag ≠ (⟨1, 4, true⟩ : CType).tag)
    ∧ (∃ q, anyCastPtr ⟨1, 4, true⟩ 8 (some ⟨⟨1, 4, true⟩, .inl 5⟩) = some q
        ∧ readThrough ⟨[], 0⟩ ⟨⟨1, 4, true⟩, .inl 5⟩ q
            = containedValue 8 ⟨[], 0⟩ ⟨⟨1, 4, true⟩, .inl 5⟩
        ∧ containedValue 8 ⟨[], 0⟩ ⟨⟨1, 4, true⟩, .inl 5⟩ ≠ none) :=
  spec_C6 ⟨1, 4, true⟩ 8 ⟨⟨1, 4, true⟩, .inl 5⟩ ⟨[], 0⟩ (by decide) rfl (by decide)

/-- Witness for C8 at a concrete input: a 16-byte type at capacity 8. -/
theorem spec_C8_witness :
    (⟨1, 16, true⟩ : CType).NeedsAlloc 8 = true
      ↔ ((⟨1, 16, true⟩ : CType).size > 8 ∨ (⟨1, 16, true⟩ : CType).nothrowMove = false) :=
  spec_C8 ⟨1, 16, true⟩ 8 (by decide)

/-- Witness for C9 at a concrete input: a heap-backed type (size 16 at both
capacities 8) whose cell lives at address 3. -/
theorem spec_C9_witness :
    (SizedAny.moveCtor ⟨⟨1, 16, true⟩, .ptr 3⟩ 8 8 ⟨[(3, 99)], 4⟩).obj
        = ⟨⟨1, 16, true⟩, .ptr 3⟩
    ∧ (SizedAny.moveCtor ⟨⟨1, 16, true⟩, .ptr 3⟩ 8 8 ⟨[(3, 99)], 4⟩).ops = []
    ∧ (SizedAny.moveCtor ⟨⟨1, 16, true⟩, .ptr 3⟩ 8 8 ⟨[(3, 99)], 4⟩).mem = ⟨[(3, 99)], 4⟩
    ∧ anyCastPtr ⟨1, 16, true⟩ 8
        (some (SizedAny.moveCtor ⟨⟨1, 16, true⟩, .ptr 3⟩ 8 8 ⟨[(3, 99)], 4⟩).obj)
        = anyCastPtr ⟨1, 16, true⟩ 8 (some ⟨⟨1, 16, true⟩, .ptr 3⟩)
    ∧ anyCastPtr ⟨1, 16, true⟩ 8
        (some (SizedAny.moveCtor ⟨⟨1, 16, true⟩, .ptr 3⟩ 8 8 ⟨[(3, 99)], 4⟩).obj)
        = some (.heapPtr 3) :=
  spec_C9 ⟨1, 16, true⟩ 8 8 3 ⟨[(3, 99)], 4⟩ (by decide) (by decide)

end SA
